import Mathlib

/-!
# HCS widget v3 — signal-to-decision pipeline, shallow embedding

A shallow embedding of the risk-scoring / policy / decision core of the
hcs-widget repository, together with theorems checking the natural-language
specification against it.

Sources embedded (JS numbers are modelled as rationals; the DOM, network and
storage effects are modelled as explicit inputs and explicit state passing):

* src/widget-v3/risk/thresholds.ts  (unnamed part_010) — Thresholds, DEFAULT_THRESHOLDS
* src/widget-v3/policy/rules.ts — evaluateRisk
* src/widget-v3/policy/remote-config.ts and its second generation (unnamed
  part_008) — RemoteConfig, SAFE_DEFAULTS, isFresh, fetchRemoteConfig
* src/widget-v3/risk/scoring.ts — clamp, ema, combineRisk
* src/widget-v3/api/validate.ts — validate
* src/widget-v3/policy/decision.ts, second generation (unnamed part_007) — runDecision
* src/widget-v3/telemetry/behavior.ts — mean, std, skewness, kurtosis
-/

namespace HCS

/-- Decision enum from core/state.ts. -/
inductive Decision where
  | allow
  | soft
  | challenge
  | hard_challenge
  | bunker
  | block
deriving DecidableEq, Repr

/-- Config mode union type from policy/remote-config.ts. -/
inductive Mode where
  | monitor
  | adaptive
  | enforce
deriving DecidableEq, Repr

/-- Thresholds interface from risk/thresholds.ts (unnamed part_010). -/
structure Thresholds where
  allow : ℚ
  soft : ℚ
  challenge : ℚ
  bunker : ℚ
deriving DecidableEq, Repr

/-- DEFAULT_THRESHOLDS from risk/thresholds.ts (unnamed part_010). -/
def DEFAULT_THRESHOLDS : Thresholds :=
  { allow := 35, soft := 60, challenge := 80, bunker := 92 }

/-- bunkerPolicy field shape of RemoteConfig. -/
structure BunkerPolicy where
  enabled : Bool
  ttlSeconds : ℚ
deriving DecidableEq, Repr

/-- sampling field shape of RemoteConfig. -/
structure Sampling where
  telemetry : ℚ
  fullSignals : ℚ
deriving DecidableEq, Repr

/-- privacy field shape of RemoteConfig. -/
structure Privacy where
  maskPII : Bool
deriving DecidableEq, Repr

/-- timeouts field shape of RemoteConfig. -/
structure Timeouts where
  configMs : ℚ
  validateMs : ℚ
  pingMs : ℚ
deriving DecidableEq, Repr

/-- ui field shape of RemoteConfig. -/
structure UiConfig where
  showBadge : Bool
  showToastOnChallenge : Bool
deriving DecidableEq, Repr

/-- RemoteConfig interface from policy/remote-config.ts (identical in both
generations of the file). -/
structure RemoteConfig where
  mode : Mode
  thresholds : Thresholds
  softActions : List String
  challengeActions : List String
  bunkerPolicy : BunkerPolicy
  sampling : Sampling
  privacy : Privacy
  timeouts : Timeouts
  ui : UiConfig
  killSwitch : Bool
  updatedAt : String
  ttlSeconds : ℚ
deriving DecidableEq, Repr

/-- SAFE_DEFAULTS from the second-generation remote config module
(unnamed part_008): bunker disabled, 800/1200/400 ms timeouts. -/
def SAFE_DEFAULTS : RemoteConfig :=
  { mode := .adaptive
    thresholds := DEFAULT_THRESHOLDS
    softActions := ["pow-lite", "js-attestation", "silent-retry"]
    challengeActions := ["cognitive-lite"]
    bunkerPolicy := { enabled := false, ttlSeconds := 900 }
    sampling := { telemetry := 0.25, fullSignals := 0.10 }
    privacy := { maskPII := true }
    timeouts := { configMs := 800, validateMs := 1200, pingMs := 400 }
    ui := { showBadge := false, showToastOnChallenge := true }
    killSwitch := false
    updatedAt := ""
    ttlSeconds := 300 }

/-- SAFE_DEFAULTS from src/widget-v3/policy/remote-config.ts (the named file in
the tree): bunker enabled, 4000/5000/2000 ms timeouts. -/
def SAFE_DEFAULTS_POLICY_TS : RemoteConfig :=
  { mode := .adaptive
    thresholds := DEFAULT_THRESHOLDS
    softActions := ["pow-lite", "js-attestation", "silent-retry", "token-refresh"]
    challengeActions := ["cognitive-lite"]
    bunkerPolicy := { enabled := true, ttlSeconds := 900 }
    sampling := { telemetry := 0.25, fullSignals := 0.10 }
    privacy := { maskPII := true }
    timeouts := { configMs := 4000, validateMs := 5000, pingMs := 2000 }
    ui := { showBadge := false, showToastOnChallenge := true }
    killSwitch := false
    updatedAt := ""
    ttlSeconds := 300 }

/-- Component scores of a risk breakdown (risk/risk-engine.ts). -/
structure RiskComponents where
  fingerprint : ℚ
  behavior : ℚ
  automation : ℚ
  integrity : ℚ
  velocity : ℚ
  network : ℚ
deriving DecidableEq, Repr

/-- RiskBreakdown from risk/types.ts. -/
structure RiskBreakdown where
  total : ℚ
  components : RiskComponents
  reasons : List String
deriving DecidableEq, Repr

/-- clamp from risk/scoring.ts: clamp to the interval from 0 to 100. -/
def clamp (v : ℚ) : ℚ := max 0 (min 100 v)

/-- ema from risk/scoring.ts: exponential moving average, cold start passes the
raw current score through unclamped. -/
def ema (prev curr alpha : ℚ) : ℚ :=
  if prev = 0 then curr else clamp (alpha * curr + (1 - alpha) * prev)

/-- combineRisk from risk/scoring.ts: server risk weighted 0.6, client 0.4. -/
def combineRisk (clientRisk serverRisk : ℚ) : ℚ :=
  clamp (clientRisk * 0.4 + serverRisk * 0.6)

/-- evaluateRisk from policy/rules.ts.  The optional chaining on the nullable
config argument is modelled with Option: a missing config makes every
config test falsy, and thresholds fall back to DEFAULT_THRESHOLDS. -/
def evaluateRisk (risk : RiskBreakdown) (config : Option RemoteConfig) : Decision :=
  let t := (config.map (·.thresholds)).getD DEFAULT_THRESHOLDS
  let score := risk.total
  -- Kill switch — monitor only, never block
  if config.any (·.killSwitch) then .allow
  -- Monitor mode — always allow, just observe
  else if config.any (·.mode == .monitor) then .allow
  -- Bunker override from remote config
  else if config.any (·.bunkerPolicy.enabled) ∧ t.bunker ≤ score then .bunker
  -- Progressive escalation
  else if score < t.allow then .allow
  else if score < t.soft then .soft
  else if score < t.challenge then .challenge
  else if score < t.bunker then .hard_challenge
  -- Score at or above the bunker threshold
  else if config.any (·.bunkerPolicy.enabled) then .bunker
  -- Bunker not enabled — fall back to block
  else .block

/-- Severity rank used by the spec for monotonicity: allow, soft, challenge,
hard_challenge strictly increase; bunker and block share the top rank. -/
def severity : Decision → ℕ
  | .allow => 0
  | .soft => 1
  | .challenge => 2
  | .hard_challenge => 3
  | .bunker => 4
  | .block => 4

/-- All-zero component record, used for concrete witnesses. -/
def zeroComponents : RiskComponents :=
  { fingerprint := 0, behavior := 0, automation := 0, integrity := 0,
    velocity := 0, network := 0 }

/-- Risk breakdown with a given total and zeroed components, for witnesses. -/
def mkRisk (total : ℚ) : RiskBreakdown :=
  { total := total, components := zeroComponents, reasons := [] }

/-- C1: for a policy with thresholds 35/60/80/92, kill switch off and mode not
monitor, evaluateRisk maps totals 0 and 34 to allow, 35 and 59 to soft, 60 and
79 to challenge, 80 and 91 to hard_challenge, and — with the bunker policy
enabled — 92 and 100 to bunker; with the bunker policy disabled a total of 95
maps to block. -/
theorem evaluateRisk_threshold_bands (cfg : RemoteConfig) (c : RiskComponents)
    (rs : List String)
    (ht : cfg.thresholds = { allow := 35, soft := 60, challenge := 80, bunker := 92 })
    (hk : cfg.killSwitch = false) (hm : cfg.mode ≠ .monitor) :
    (cfg.bunkerPolicy.enabled = true →
      evaluateRisk ⟨0, c, rs⟩ (some cfg) = .allow ∧
      evaluateRisk ⟨34, c, rs⟩ (some cfg) = .allow ∧
      evaluateRisk ⟨35, c, rs⟩ (some cfg) = .soft ∧
      evaluateRisk ⟨59, c, rs⟩ (some cfg) = .soft ∧
      evaluateRisk ⟨60, c, rs⟩ (some cfg) = .challenge ∧
      evaluateRisk ⟨79, c, rs⟩ (some cfg) = .challenge ∧
      evaluateRisk ⟨80, c, rs⟩ (some cfg) = .hard_challenge ∧
      evaluateRisk ⟨91, c, rs⟩ (some cfg) = .hard_challenge ∧
      evaluateRisk ⟨92, c, rs⟩ (some cfg) = .bunker ∧
      evaluateRisk ⟨100, c, rs⟩ (some cfg) = .bunker) ∧
    (cfg.bunkerPolicy.enabled = false →
      evaluateRisk ⟨95, c, rs⟩ (some cfg) = .block) := by
  have hm' : (cfg.mode == Mode.monitor) = false := by
    cases hmode : cfg.mode <;> simp_all
  constructor <;> intro hb <;>
    norm_num [evaluateRisk, ht, hk, hm', hb]

/-- C1 witness: the theorem applied at a concrete policy with the stated
thresholds and the bunker policy enabled. -/
theorem evaluateRisk_threshold_bands_witness :
    evaluateRisk (mkRisk 92) (some SAFE_DEFAULTS_POLICY_TS) = .bunker :=
  ((evaluateRisk_threshold_bands SAFE_DEFAULTS_POLICY_TS zeroComponents []
      rfl rfl (by decide)).1 rfl).2.2.2.2.2.2.2.2.1

/-- C6 counterexample: the last-resort safe-default policy hard-coded in
src/widget-v3/policy/remote-config.ts has the bunker policy enabled and
4000/5000 ms timeouts, contradicting the claimed bunker-disabled 800/1200 ms
defaults. -/
theorem safe_defaults_policy_ts_contradicts_claim :
    SAFE_DEFAULTS_POLICY_TS.bunkerPolicy.enabled = true ∧
    SAFE_DEFAULTS_POLICY_TS.timeouts.configMs = 4000 ∧
    SAFE_DEFAULTS_POLICY_TS.timeouts.validateMs = 5000 := by
  refine ⟨rfl, rfl, rfl⟩

/-- C6 (amended): the safe-default policy of the second-generation remote
config module (unnamed part_008) has mode adaptive, thresholds 35/60/80/92,
bunker disabled and 800/1200 ms timeouts; the copy in
policy/remote-config.ts differs only in enabling bunker, an extra soft
action, and 4000/5000/2000 ms timeouts. -/
theorem safe_defaults_shape :
    SAFE_DEFAULTS.mode = .adaptive ∧
    SAFE_DEFAULTS.thresholds =
      { allow := 35, soft := 60, challenge := 80, bunker := 92 } ∧
    SAFE_DEFAULTS.bunkerPolicy.enabled = false ∧
    SAFE_DEFAULTS.timeouts.configMs = 800 ∧
    SAFE_DEFAULTS.timeouts.validateMs = 1200 := by
  refine ⟨rfl, rfl, rfl, rfl, rfl⟩

/-- C7: with the kill switch off and mode not monitor, for strictly increasing
thresholds, evaluateRisk is monotone in the total score under the severity
order allow, soft, challenge, hard_challenge, then bunker and block at the
top. -/
theorem evaluateRisk_monotone (cfg : RemoteConfig) (r1 r2 : RiskBreakdown)
    (hk : cfg.killSwitch = false) (hm : cfg.mode ≠ .monitor)
    (h1 : cfg.thresholds.allow < cfg.thresholds.soft)
    (h2 : cfg.thresholds.soft < cfg.thresholds.challenge)
    (h3 : cfg.thresholds.challenge < cfg.thresholds.bunker)
    (hlt : r1.total < r2.total) :
    severity (evaluateRisk r1 (some cfg)) ≤ severity (evaluateRisk r2 (some cfg)) := by
  have hm' : (cfg.mode == Mode.monitor) = false := by
    cases hmode : cfg.mode <;> simp_all
  have key : ∀ r : RiskBreakdown,
      severity (evaluateRisk r (some cfg)) =
        (if r.total < cfg.thresholds.allow then 0
         else if r.total < cfg.thresholds.soft then 1
         else if r.total < cfg.thresholds.challenge then 2
         else if r.total < cfg.thresholds.bunker then 3
         else 4) := by
    intro r
    simp only [evaluateRisk, Option.any_some, Option.map_some', Option.getD_some, hk, hm',
      Bool.false_eq_true, if_false]
    split_ifs <;> first
      | rfl
      | (exfalso; linarith)
  rw [key r1, key r2]
  split_ifs <;> first | omega | linarith

/-- C7 witness: monotonicity applied at a concrete policy and the concrete
scores 10 and 90. -/
theorem evaluateRisk_monotone_witness :
    severity (evaluateRisk (mkRisk 10) (some SAFE_DEFAULTS)) ≤
      severity (evaluateRisk (mkRisk 90) (some SAFE_DEFAULTS)) :=
  evaluateRisk_monotone SAFE_DEFAULTS (mkRisk 10) (mkRisk 90)
    rfl (by decide) (by norm_num [SAFE_DEFAULTS, DEFAULT_THRESHOLDS])
    (by norm_num [SAFE_DEFAULTS, DEFAULT_THRESHOLDS])
    (by norm_num [SAFE_DEFAULTS, DEFAULT_THRESHOLDS])
    (by norm_num [mkRisk])

/-- C10: with no resolved config, evaluateRisk never returns bunker, and under
the default thresholds every total of at least 92 yields block. -/
theorem evaluateRisk_none_no_bunker (risk : RiskBreakdown) :
    evaluateRisk risk none ≠ .bunker ∧
    (92 ≤ risk.total → evaluateRisk risk none = .block) := by
  constructor
  · simp only [evaluateRisk, Option.any_none, Option.map_none, Option.getD_none]
    norm_num [DEFAULT_THRESHOLDS]
    split_ifs <;> simp
  · intro h
    simp only [evaluateRisk, Option.any_none, Option.map_none, Option.getD_none]
    norm_num [DEFAULT_THRESHOLDS]
    split_ifs <;> first | rfl | linarith

/-- C10 witness: the theorem applied at the concrete total 95. -/
theorem evaluateRisk_none_no_bunker_witness :
    evaluateRisk (mkRisk 95) none = .block ∧
    evaluateRisk (mkRisk 95) none ≠ .bunker :=
  ⟨(evaluateRisk_none_no_bunker (mkRisk 95)).2 (by norm_num [mkRisk]),
   (evaluateRisk_none_no_bunker (mkRisk 95)).1⟩

/-- ValidationResult from core/state.ts: the server's answer as stored by the
widget. -/
structure ValidationResult where
  action : String
  token : Option String
  expiresIn : Option ℚ
  serverRisk : Option ℚ
  flags : Option (List String)
  reason : Option String
  score : Option ℚ
deriving DecidableEq, Repr

/-- ValidateResponse from api/validate.ts: the raw JSON body of a successful
backend validation call. -/
structure ValidateResponse where
  action : String
  token : Option String
  expiresIn : Option ℚ
  serverRisk : Option ℚ
  flags : Option (List String)
  reason : Option String
  score : Option ℚ
deriving DecidableEq, Repr

/-- The mutable widget state from core/state.ts, restricted to the fields the
decision pipeline reads or writes.  The static boot config (apiUrl, token,
tenant identifiers) only feeds the transport layer, which is abstracted away
here. -/
structure WidgetState where
  remoteConfig : Option RemoteConfig
  sessionValidated : Bool
  sessionToken : Option String
  lastDecision : Option Decision
  lastRisk : Option RiskBreakdown
  lastValidation : Option ValidationResult
  lastSeen : ℚ
  degraded : Bool
  bunkerActive : Bool
  emaScore : ℚ
deriving DecidableEq, Repr

/-- The response-to-result field mapping at the end of validate
(api/validate.ts). -/
def mapResponse (r : ValidateResponse) : ValidationResult :=
  { action := r.action
    token := r.token
    expiresIn := r.expiresIn
    serverRisk := r.serverRisk
    flags := r.flags
    reason := r.reason
    score := r.score }

/-- validate from api/validate.ts.  The transport (safeFetch, which resolves to
null on unreachable backend, timeout or abort) is abstracted as its outcome
fetchResult; the request-body construction has no effect on the result.  On a
null transport result the widget is marked degraded and an allow/api_unreachable
placeholder is returned; otherwise the response is mapped field by field and a
token, if present, is stored. -/
def validate (fetchResult : Option ValidateResponse) (s : WidgetState) :
    Option ValidationResult × WidgetState :=
  match fetchResult with
  | none =>
      -- API unreachable → degraded mode
      (some { action := "allow"
              token := none
              expiresIn := none
              serverRisk := none
              flags := none
              reason := some "api_unreachable"
              score := some 0 },
       { s with degraded := true })
  | some r =>
      let s' := if r.token.isSome then { s with sessionToken := r.token } else s
      (some (mapResponse r), s')

/-- The input a single runDecision call consumes from its environment: the
client-side risk assessment (assessRisk reads DOM-collected buffers), the dev
tolerance adjustment (applyDevTolerance is called from the orchestrator but its
definition is not among the repository sources, so it stays abstract), the
backend transport outcome, the outcomes of the interactive actions, whether an
exception is thrown inside the pipeline body, and the current time. -/
structure DecisionEnv where
  clientRisk : RiskBreakdown
  devTolerance : ℚ → ℚ
  fetchResult : Option ValidateResponse
  challengePassed : Bool
  bunkerPassed : Bool
  pipelineError : Bool
  now : ℚ

/-- The observable outcome of one runDecision call: the returned decision, the
widget state afterwards, and whether client-side scoring (assessRisk) and the
server validation call actually ran. -/
structure RunResult where
  decision : Decision
  state : WidgetState
  ranScoring : Bool
  calledServer : Bool
deriving Repr

/-- The PART 2 block of runDecision (unnamed part_007): reset bunker state when
the mode is not enforce.  clearBunkerWhitelist only touches sessionStorage. -/
def bunkerReset (s : WidgetState) : WidgetState :=
  let mode := (s.remoteConfig.map (·.mode)).getD .adaptive
  if mode ≠ .enforce ∧ s.bunkerActive then
    { s with bunkerActive := false
             sessionToken := none
             emaScore := 0 }
  else s

/-- The PART 5 block of runDecision (unnamed part_007): anti-escalation
hysteresis.  An escalation of a previous allow (resp. soft) decision to
challenge or hard_challenge is suppressed to soft while the combined score is
below the challenge threshold plus 5 (resp. plus 3); without a thresholds
object the guards are falsy and the evaluated decision stands. -/
def applyHysteresis (prev : Option Decision) (oc : Option RemoteConfig)
    (finalScore : ℚ) (d0 : Decision) : Decision :=
  let d1 : Decision :=
    match oc with
    | some c =>
        if prev = some .allow ∧ (d0 = .challenge ∨ d0 = .hard_challenge) ∧
            finalScore < c.thresholds.challenge + 5 then .soft
        else d0
    | none => d0
  match oc with
  | some c =>
      if prev = some .soft ∧ (d1 = .challenge ∨ d1 = .hard_challenge) ∧
          finalScore < c.thresholds.challenge + 3 then .soft
      else d1
  | none => d1

/-- Step 6 of runDecision (unnamed part_007): execute the action for the final
decision.  executeAllow, executeSoft and executeBlock do not write the widget
state; executeChallenge reports pass (validate the session) or fail (block);
executeBunker sets sessionValidated when the gate is passed or the session is
whitelisted. -/
def executeAction (env : DecisionEnv) (d2 : Decision) (s8 : WidgetState) : RunResult :=
  match d2 with
  | .allow =>
      { decision := .allow
        state := { s8 with sessionValidated := true }
        ranScoring := true
        calledServer := true }
  | .soft =>
      { decision := .soft
        state := { s8 with sessionValidated := true }
        ranScoring := true
        calledServer := true }
  | .challenge =>
      if env.challengePassed then
        { decision := .challenge
          state := { s8 with sessionValidated := true }
          ranScoring := true
          calledServer := true }
      else
        { decision := .block
          state := { s8 with lastDecision := some .block }
          ranScoring := true
          calledServer := true }
  | .hard_challenge =>
      if env.challengePassed then
        { decision := .hard_challenge
          state := { s8 with sessionValidated := true }
          ranScoring := true
          calledServer := true }
      else
        { decision := .block
          state := { s8 with lastDecision := some .block }
          ranScoring := true
          calledServer := true }
  | .bunker =>
      { decision := .bunker
        state := if env.bunkerPassed then { s8 with sessionValidated := true } else s8
        ranScoring := true
        calledServer := true }
  | .block =>
      { decision := .block
        state := s8
        ranScoring := true
        calledServer := true }

/-- Steps 3 to 6 of runDecision (unnamed part_007), entered with a usable
server result sr, the state s4 left by validate and the smoothed client
breakdown risk1: combine client and server risk and re-apply the EMA, honor a
direct server block or (enabled) bunker instruction, otherwise evaluate the
rules, apply hysteresis, store the results, track bunker activation and
execute the action. -/
def afterValidate (env : DecisionEnv) (sr : ValidationResult) (s4 : WidgetState)
    (risk1 : RiskBreakdown) : RunResult :=
  -- 3. Combine risks (re-apply EMA on the combined score)
  let step :=
    match sr.serverRisk with
    | some srisk =>
        let e2 := ema s4.emaScore (combineRisk risk1.total srisk) 0.3
        (e2, { s4 with emaScore := e2 }, { risk1 with total := e2 })
    | none => (risk1.total, s4, risk1)
  let finalScore := step.1
  let s5 := step.2.1
  let risk2 := step.2.2
  -- If server says block/bunker directly, respect it
  if sr.action = "block" then
    { decision := .block
      state := { s5 with lastDecision := some .block
                         lastValidation := some sr }
      ranScoring := true
      calledServer := true }
  else if sr.action = "bunker" ∧ s5.remoteConfig.any (·.bunkerPolicy.enabled) then
    { decision := .bunker
      state := { s5 with lastDecision := some .bunker
                         lastValidation := some sr
                         bunkerActive := true
                         sessionValidated :=
                           if env.bunkerPassed then true else s5.sessionValidated }
      ranScoring := true
      calledServer := true }
  else
    -- 4. Evaluate rules with combined score;  PART 5: hysteresis
    let d0 := evaluateRisk risk2 s5.remoteConfig
    let d2 := applyHysteresis s5.lastDecision s5.remoteConfig finalScore d0
    -- 5. Store results; store a received token; track bunker activation
    let s8 := { s5 with lastDecision := some d2
                        lastValidation := some sr
                        lastSeen := env.now
                        sessionToken :=
                          if sr.token.isSome then sr.token else s5.sessionToken
                        bunkerActive :=
                          if d2 = .bunker then true else s5.bunkerActive }
    -- 6. Execute action
    executeAction env d2 s8

/-- runDecision from the decision orchestrator (unnamed part_007, the
generation with EMA smoothing, fail-safe soft mode and hysteresis).  Effects
are modelled by explicit state passing; the numbered steps of the source are
split into the stage functions above.  An exception inside the try body is
modelled as occurring before scoring. -/
def runDecision (env : DecisionEnv) (s0 : WidgetState) : RunResult :=
  if s0.sessionValidated then
    -- Already validated this session
    { decision := s0.lastDecision.getD .allow
      state := s0
      ranScoring := false
      calledServer := false }
  else
    -- PART 2: Reset bunker state when mode is not enforce
    let s1 := bunkerReset s0
    if env.pipelineError then
      -- PART 6: Fail-safe — never break the client's site; monitor-only
      { decision := .soft
        state := { s1 with degraded := true
                           lastDecision := some .soft
                           sessionValidated := true }
        ranScoring := false
        calledServer := false }
    else
      -- 1. Client-side risk assessment
      let risk0 := env.clientRisk
      let s2 := { s1 with lastRisk := some risk0 }
      -- PART 4: Dev mode tolerance;  PART 2: EMA smoothing
      let e1 := ema s2.emaScore (env.devTolerance risk0.total) 0.3
      let s3 := { s2 with emaScore := e1 }
      let risk1 := { risk0 with total := e1 }
      -- 2. Server validation (non-blocking timeout)
      match validate env.fetchResult s3 with
      | (none, s4) =>
          -- PART 6: Fail-safe — API unreachable, monitor-only mode
          { decision := .soft
            state := { s4 with degraded := true
                               lastDecision := some .soft
                               lastSeen := env.now
                               sessionValidated := true }
            ranScoring := true
            calledServer := true }
      | (some sr, s4) =>
          if sr.reason = some "api_unreachable" then
            { decision := .soft
              state := { s4 with degraded := true
                                 lastDecision := some .soft
                                 lastSeen := env.now
                                 sessionValidated := true }
              ranScoring := true
              calledServer := true }
          else
            afterValidate env sr s4 risk1

theorem bunkerReset_remoteConfig (s : WidgetState) :
    (bunkerReset s).remoteConfig = s.remoteConfig := by
  unfold bunkerReset; dsimp only; split <;> rfl

theorem bunkerReset_sessionValidated (s : WidgetState) :
    (bunkerReset s).sessionValidated = s.sessionValidated := by
  unfold bunkerReset; dsimp only; split <;> rfl

theorem bunkerReset_lastDecision (s : WidgetState) :
    (bunkerReset s).lastDecision = s.lastDecision := by
  unfold bunkerReset; dsimp only; split <;> rfl

theorem bunkerReset_degraded (s : WidgetState) :
    (bunkerReset s).degraded = s.degraded := by
  unfold bunkerReset; dsimp only; split <;> rfl

/-- C3: once sessionValidated is true, runDecision short-circuits: it returns
the stored decision, runs no scoring and no server call, and leaves the state
untouched. -/
theorem runDecision_short_circuits (env : DecisionEnv) (s : WidgetState)
    (d : Decision) (hv : s.sessionValidated = true) (hd : s.lastDecision = some d) :
    runDecision env s =
      { decision := d, state := s, ranScoring := false, calledServer := false } := by
  simp [runDecision, hv, hd]

/-- Environment used by concrete pipeline witnesses: zero client risk, identity
dev tolerance, unreachable backend, passing challenge outcomes, no exception. -/
def envNoServer : DecisionEnv :=
  { clientRisk := mkRisk 0
    devTolerance := id
    fetchResult := none
    challengePassed := true
    bunkerPassed := true
    pipelineError := false
    now := 0 }

/-- A blank widget state: nothing resolved, nothing validated. -/
def blankState : WidgetState :=
  { remoteConfig := none
    sessionValidated := false
    sessionToken := none
    lastDecision := none
    lastRisk := none
    lastValidation := none
    lastSeen := 0
    degraded := false
    bunkerActive := false
    emaScore := 0 }

/-- C3 witness: the short-circuit applied to a concrete validated session that
stored an allow decision. -/
theorem runDecision_short_circuits_witness :
    runDecision envNoServer
        { blankState with sessionValidated := true, lastDecision := some .allow } =
      { decision := .allow
        state := { blankState with sessionValidated := true, lastDecision := some .allow }
        ranScoring := false
        calledServer := false } :=
  runDecision_short_circuits envNoServer
    { blankState with sessionValidated := true, lastDecision := some .allow } .allow rfl rfl

/-- C2: when the server validation transport yields no response, a not yet
validated session is marked degraded and resolved to soft — never to allow. -/
theorem runDecision_unreachable_degrades_to_soft (env : DecisionEnv) (s : WidgetState)
    (hv : s.sessionValidated = false) (hf : env.fetchResult = none) :
    (runDecision env s).decision = .soft ∧
    (runDecision env s).state.degraded = true ∧
    (runDecision env s).decision ≠ .allow := by
  by_cases hp : env.pipelineError <;>
    simp [runDecision, hv, hf, hp, validate]

/-- C2 witness: the fail-safe applied to a concrete blank session whose
backend call yields no response. -/
theorem runDecision_unreachable_degrades_to_soft_witness :
    (runDecision envNoServer blankState).decision = .soft ∧
    (runDecision envNoServer blankState).state.degraded = true ∧
    (runDecision envNoServer blankState).decision ≠ .allow :=
  runDecision_unreachable_degrades_to_soft envNoServer blankState rfl rfl

/-- The combined, smoothed score that the rule-evaluation and hysteresis steps
of runDecision operate on, written out from the same source lines: dev
tolerance, first EMA pass on the client total, then — when the server sent a
serverRisk — combination with the server risk and a second EMA pass. -/
def smoothedTotal (env : DecisionEnv) (s : WidgetState) : ℚ :=
  ema (bunkerReset s).emaScore (env.devTolerance env.clientRisk.total) 0.3

def pipelineScore (env : DecisionEnv) (s : WidgetState) : ℚ :=
  let e1 := smoothedTotal env s
  match env.fetchResult with
  | some r =>
      match r.serverRisk with
      | some v => ema e1 (combineRisk e1 v) 0.3
      | none => e1
  | none => e1

/-- The combined score computed in step 3 of afterValidate, as a function of
its inputs. -/
def combinedScore (sr : ValidationResult) (s4 : WidgetState)
    (risk1 : RiskBreakdown) : ℚ :=
  match sr.serverRisk with
  | some v => ema s4.emaScore (combineRisk risk1.total v) 0.3
  | none => risk1.total

/-- The decision ultimately returned by executeAction: a failed challenge or
hard challenge becomes block, everything else returns unchanged. -/
def decisionOf (env : DecisionEnv) (d : Decision) : Decision :=
  match d with
  | .challenge => if env.challengePassed then .challenge else .block
  | .hard_challenge => if env.challengePassed then .hard_challenge else .block
  | d => d

theorem executeAction_decision (env : DecisionEnv) (d : Decision) (st : WidgetState) :
    (executeAction env d st).decision = decisionOf env d := by
  cases d <;> cases hc : env.challengePassed <;>
    simp [executeAction, decisionOf, hc]

theorem executeAction_ranScoring (env : DecisionEnv) (d : Decision) (st : WidgetState) :
    (executeAction env d st).ranScoring = true := by
  cases d <;> cases hc : env.challengePassed <;>
    simp [executeAction, hc]

theorem executeAction_block_sessionValidated (env : DecisionEnv) (d : Decision)
    (st : WidgetState) (hb : (executeAction env d st).decision = .block) :
    (executeAction env d st).state.sessionValidated = st.sessionValidated := by
  cases d <;> cases hc : env.challengePassed <;>
    simp_all [executeAction, hc]

theorem afterValidate_decision (env : DecisionEnv) (sr : ValidationResult)
    (s4 : WidgetState) (risk1 : RiskBreakdown) (cfg : RemoteConfig)
    (hblock : sr.action ≠ "block")
    (hbunker : ¬(sr.action = "bunker" ∧ cfg.bunkerPolicy.enabled = true))
    (h4 : s4.remoteConfig = some cfg) :
    (afterValidate env sr s4 risk1).decision =
      decisionOf env (applyHysteresis s4.lastDecision (some cfg)
        (combinedScore sr s4 risk1)
        (evaluateRisk { risk1 with total := combinedScore sr s4 risk1 } (some cfg))) := by
  unfold afterValidate
  rcases hsv : sr.serverRisk with _ | v <;>
    · simp only [hsv]
      rw [if_neg hblock]
      rw [h4]
      simp only [Option.any_some]
      rw [if_neg (by simpa using hbunker)]
      rw [executeAction_decision]
      simp [combinedScore, hsv, h4]

theorem afterValidate_ranScoring (env : DecisionEnv) (sr : ValidationResult)
    (s4 : WidgetState) (risk1 : RiskBreakdown) :
    (afterValidate env sr s4 risk1).ranScoring = true := by
  unfold afterValidate
  rcases hsv : sr.serverRisk with _ | v <;>
    · simp only [hsv]
      split_ifs <;> first | rfl | apply executeAction_ranScoring

theorem afterValidate_block_sessionValidated (env : DecisionEnv)
    (sr : ValidationResult) (s4 : WidgetState) (risk1 : RiskBreakdown) :
    (afterValidate env sr s4 risk1).decision = .block →
    (afterValidate env sr s4 risk1).state.sessionValidated = s4.sessionValidated := by
  unfold afterValidate
  rcases hsv : sr.serverRisk with _ | v <;>
    · simp only [hsv]
      split_ifs <;> intro hb <;>
        first
          | rfl
          | simp at hb
          | exact executeAction_block_sessionValidated _ _ _ hb

theorem applyHysteresis_suppresses (prev : Option Decision) (cfg : RemoteConfig)
    (score : ℚ) (d0 : Decision)
    (hd : d0 = .challenge ∨ d0 = .hard_challenge)
    (hp : (prev = some .allow ∧ score < cfg.thresholds.challenge + 5) ∨
      (prev = some .soft ∧ score < cfg.thresholds.challenge + 3)) :
    applyHysteresis prev (some cfg) score d0 = .soft := by
  rcases hp with ⟨h1, h2⟩ | ⟨h1, h2⟩ <;> rcases hd with rfl | rfl <;>
    simp [applyHysteresis, h1, h2]

/-- The widget state at the moment runDecision hands over to the
rule-evaluation stage: bunker reset applied, the fresh risk breakdown and the
EMA-smoothed score stored, and a token from the server response, if any,
installed by validate. -/
def postValidateState (env : DecisionEnv) (s : WidgetState)
    (r : ValidateResponse) : WidgetState :=
  let s1 := bunkerReset s
  let s2 := { s1 with lastRisk := some env.clientRisk }
  let s3 := { s2 with emaScore := smoothedTotal env s }
  if r.token.isSome then { s3 with sessionToken := r.token } else s3

theorem postValidateState_remoteConfig (env : DecisionEnv) (s : WidgetState)
    (r : ValidateResponse) :
    (postValidateState env s r).remoteConfig = s.remoteConfig := by
  unfold postValidateState
  rcases ht : r.token.isSome <;> simp [ht, bunkerReset_remoteConfig]

theorem postValidateState_lastDecision (env : DecisionEnv) (s : WidgetState)
    (r : ValidateResponse) :
    (postValidateState env s r).lastDecision = s.lastDecision := by
  unfold postValidateState
  rcases ht : r.token.isSome <;> simp [ht, bunkerReset_lastDecision]

theorem postValidateState_sessionValidated (env : DecisionEnv) (s : WidgetState)
    (r : ValidateResponse) :
    (postValidateState env s r).sessionValidated = s.sessionValidated := by
  unfold postValidateState
  rcases ht : r.token.isSome <;> simp [ht, bunkerReset_sessionValidated]

theorem postValidateState_emaScore (env : DecisionEnv) (s : WidgetState)
    (r : ValidateResponse) :
    (postValidateState env s r).emaScore = smoothedTotal env s := by
  unfold postValidateState
  rcases ht : r.token.isSome <;> simp [ht]

/-- Reaching the rule-evaluation stage: with the session not validated, no
exception, and a server response that is not api_unreachable, runDecision is
afterValidate on the post-validate state with the smoothed breakdown. -/
theorem runDecision_reaches_rules (env : DecisionEnv) (s : WidgetState)
    (r : ValidateResponse)
    (hv : s.sessionValidated = false) (hp : env.pipelineError = false)
    (hf : env.fetchResult = some r)
    (hru : r.reason ≠ some "api_unreachable") :
    runDecision env s = afterValidate env (mapResponse r) (postValidateState env s r)
      { env.clientRisk with total := smoothedTotal env s } := by
  unfold runDecision
  simp only [hv, Bool.false_eq_true, if_false, hp]
  rw [hf]
  unfold validate
  dsimp only
  rw [if_neg (by simpa [mapResponse] using hru)]
  rfl

/-- C4: on a pipeline run that reaches rule evaluation (session not yet
validated, no exception, a server response that is not api_unreachable and
commands neither block nor an enabled bunker), with a config present: when the
rule evaluator yields challenge or hard_challenge on the combined score, and
either the previous decision was allow with the score below the challenge
threshold plus 5, or the previous decision was soft with the score below the
challenge threshold plus 3, the hysteresis holds the final decision at soft. -/
theorem runDecision_hysteresis (env : DecisionEnv) (s : WidgetState)
    (cfg : RemoteConfig) (r : ValidateResponse)
    (hv : s.sessionValidated = false) (hp : env.pipelineError = false)
    (hf : env.fetchResult = some r)
    (hru : r.reason ≠ some "api_unreachable")
    (hblock : r.action ≠ "block")
    (hbunker : r.action = "bunker" → cfg.bunkerPolicy.enabled = false)
    (hcfg : s.remoteConfig = some cfg)
    (heval : evaluateRisk { env.clientRisk with total := pipelineScore env s }
        (some cfg) = .challenge ∨
      evaluateRisk { env.clientRisk with total := pipelineScore env s }
        (some cfg) = .hard_challenge)
    (hprev : (s.lastDecision = some .allow ∧
        pipelineScore env s < cfg.thresholds.challenge + 5) ∨
      (s.lastDecision = some .soft ∧
        pipelineScore env s < cfg.thresholds.challenge + 3)) :
    (runDecision env s).decision = .soft := by
  have heq := runDecision_reaches_rules env s r hv hp hf hru
  have h1 := postValidateState_remoteConfig env s r
  have h2 := postValidateState_lastDecision env s r
  have h4 := postValidateState_emaScore env s r
  have hscore : combinedScore (mapResponse r) (postValidateState env s r)
      { env.clientRisk with total := smoothedTotal env s } = pipelineScore env s := by
    rcases hsv : r.serverRisk with _ | v <;>
      simp [combinedScore, pipelineScore, mapResponse, hf, hsv, h4, smoothedTotal]
  rw [heq, afterValidate_decision env (mapResponse r) (postValidateState env s r)
    { env.clientRisk with total := smoothedTotal env s } cfg
    (by simpa [mapResponse] using hblock)
    (by rintro ⟨ha, hb⟩; rw [hbunker (by simpa [mapResponse] using ha)] at hb; cases hb)
    (h1.trans hcfg)]
  rw [hscore, h2]
  have hrisk : ({ { env.clientRisk with total := smoothedTotal env s } with
      total := pipelineScore env s } : RiskBreakdown) =
      { env.clientRisk with total := pipelineScore env s } := rfl
  rw [hrisk]
  rw [applyHysteresis_suppresses s.lastDecision cfg (pipelineScore env s) _ heval hprev]
  rfl

/-- A server response that only acknowledges: action allow, nothing else. -/
def respAllow : ValidateResponse :=
  { action := "allow"
    token := none
    expiresIn := none
    serverRisk := none
    flags := none
    reason := none
    score := none }

/-- Environment for the hysteresis witness: client total 82, acknowledging
server, no exception. -/
def envHyst : DecisionEnv :=
  { clientRisk := mkRisk 82
    devTolerance := id
    fetchResult := some respAllow
    challengePassed := true
    bunkerPassed := true
    pipelineError := false
    now := 0 }

/-- Session state for the hysteresis witness: safe defaults resolved, previous
decision allow. -/
def stateHyst : WidgetState :=
  { blankState with remoteConfig := some SAFE_DEFAULTS, lastDecision := some .allow }

/-- C4 witness: a previous allow decision with a combined score of 82 (between
the challenge threshold 80 and 80 + 5) is held at soft. -/
theorem runDecision_hysteresis_witness :
    (runDecision envHyst stateHyst).decision = .soft := by
  have hps : pipelineScore envHyst stateHyst = 82 := by
    norm_num [pipelineScore, smoothedTotal, ema, bunkerReset, envHyst, stateHyst,
      blankState, mkRisk, respAllow]
  exact runDecision_hysteresis envHyst stateHyst SAFE_DEFAULTS respAllow
    rfl rfl rfl (by decide) (by decide) (by decide) rfl
    (Or.inr (by rw [hps]; decide))
    (Or.inl ⟨rfl, by rw [hps]; norm_num [SAFE_DEFAULTS, DEFAULT_THRESHOLDS]⟩)

/-- C8 (amended): a block decision is not terminal at the orchestrator level:
runDecision short-circuits only on sessionValidated, which no block path sets,
so any call on a not yet validated session — including one whose previous
decision was block — re-runs client scoring; every run that returns block
leaves sessionValidated false. -/
theorem runDecision_block_not_terminal (env : DecisionEnv) (s : WidgetState)
    (hv : s.sessionValidated = false) (hp : env.pipelineError = false) :
    (runDecision env s).ranScoring = true ∧
    ((runDecision env s).decision = .block →
      (runDecision env s).state.sessionValidated = false) := by
  cases hf : env.fetchResult with
  | none => simp [runDecision, hv, hp, hf, validate]
  | some r =>
      by_cases hru : r.reason = some "api_unreachable"
      · simp [runDecision, hv, hp, hf, validate, mapResponse, hru]
      · rw [runDecision_reaches_rules env s r hv hp hf hru]
        refine ⟨afterValidate_ranScoring _ _ _ _, fun hb => ?_⟩
        exact (afterValidate_block_sessionValidated _ _ _ _ hb).trans
          ((postValidateState_sessionValidated env s r).trans hv)

/-- C8 witness: the non-terminality theorem applied to a concrete blank
session. -/
theorem runDecision_block_not_terminal_witness :
    (runDecision envNoServer blankState).ranScoring = true ∧
    ((runDecision envNoServer blankState).decision = .block →
      (runDecision envNoServer blankState).state.sessionValidated = false) :=
  runDecision_block_not_terminal envNoServer blankState rfl rfl

/-- A server response that commands a block. -/
def respBlock : ValidateResponse :=
  { action := "block"
    token := none
    expiresIn := none
    serverRisk := none
    flags := none
    reason := none
    score := none }

/-- Environment whose server validation call answers with a block command. -/
def envBlock : DecisionEnv :=
  { clientRisk := mkRisk 0
    devTolerance := id
    fetchResult := some respBlock
    challengePassed := true
    bunkerPassed := true
    pipelineError := false
    now := 0 }

/-- C8 counterexample: a concrete session resolved to block stores the block
decision but is not marked validated, and a subsequent runDecision call for
the very same session re-runs client scoring and the server call. -/
theorem runDecision_block_rescores :
    (runDecision envBlock blankState).decision = .block ∧
    (runDecision envBlock blankState).state.lastDecision = some .block ∧
    (runDecision envBlock blankState).state.sessionValidated = false ∧
    (runDecision envBlock (runDecision envBlock blankState).state).ranScoring = true ∧
    (runDecision envBlock (runDecision envBlock blankState).state).calledServer = true := by
  decide

/-- A cache entry from the remote config module: a config plus the timestamp
at which it was fetched. -/
structure CacheEntry where
  config : RemoteConfig
  fetchedAt : ℚ
deriving DecidableEq, Repr

/-- isFresh from the second-generation remote config module (unnamed
part_008): an entry is fresh while its age is below ttlSeconds (a zero,
falsy, ttl falls back to 300) times 1000 milliseconds. -/
def isFresh (now : ℚ) (entry : CacheEntry) : Bool :=
  let ttl := (if entry.config.ttlSeconds = 0 then 300 else entry.config.ttlSeconds) * 1000
  decide (now - entry.fetchedAt < ttl)

/-- The JSON body of a config fetch response, projected onto what
fetchRemoteConfig inspects: whether data.thresholds is present, whether
data.mode is a string, and the decoded config used when the shape is valid. -/
structure RawConfigData where
  hasThresholds : Bool
  modeIsString : Bool
  config : RemoteConfig
deriving Repr

/-- Every way the network fetch inside fetchRemoteConfig can turn out. -/
inductive FetchOutcome where
  | netError
  | httpError (status : ℕ)
  | parseError
  | ok (data : RawConfigData)
deriving Repr

/-- The outside world of one fetchRemoteConfig call: both cache tiers as they
would be read, the widget identifier, the fetch outcome and the clock. -/
structure ConfigEnv where
  memoryCache : Option CacheEntry
  localCache : Option CacheEntry
  widgetPublicId : Option String
  fetchOutcome : FetchOutcome
  now : ℚ
deriving Repr

/-- What a fetchRemoteConfig call produces: the returned config, whether the
network was touched, the memory cache afterwards, and whether the persisted
cache was written. -/
structure ConfigResult where
  config : RemoteConfig
  fetchAttempted : Bool
  memoryCache : Option CacheEntry
  wroteLocal : Bool
deriving Repr

/-- The catch block of fetchRemoteConfig (unnamed part_008): on any fetch
failure use the stale localStorage cache when present, else safe defaults. -/
def fetchCatch (env : ConfigEnv) : ConfigResult :=
  match env.localCache with
  | some l =>
      { config := l.config
        fetchAttempted := true
        memoryCache := some l
        wroteLocal := false }
  | none =>
      { config := SAFE_DEFAULTS
        fetchAttempted := true
        memoryCache := env.memoryCache
        wroteLocal := false }

/-- Step 3 of fetchRemoteConfig (unnamed part_008): without a widgetPublicId
return safe defaults; otherwise fetch, treat non-2xx, parse failures and a
body without a thresholds object or a string mode as failures, and on success
refresh both cache tiers. -/
def fetchStep3 (env : ConfigEnv) : ConfigResult :=
  match env.widgetPublicId with
  | none =>
      { config := SAFE_DEFAULTS
        fetchAttempted := false
        memoryCache := env.memoryCache
        wroteLocal := false }
  | some _ =>
      match env.fetchOutcome with
      | .ok data =>
          if data.hasThresholds ∧ data.modeIsString then
            { config := data.config
              fetchAttempted := true
              memoryCache := some { config := data.config, fetchedAt := env.now }
              wroteLocal := true }
          else fetchCatch env
      | _ => fetchCatch env

/-- Step 2 of fetchRemoteConfig (unnamed part_008): a fresh localStorage cache
is promoted to the memory cache and returned without fetching. -/
def fetchStep2 (env : ConfigEnv) : ConfigResult :=
  match env.localCache with
  | some l =>
      if isFresh env.now l then
        { config := l.config
          fetchAttempted := false
          memoryCache := some l
          wroteLocal := false }
      else fetchStep3 env
  | none => fetchStep3 env

/-- fetchRemoteConfig from the second-generation remote config module (unnamed
part_008), with the I/O abstracted into ConfigEnv.  The function is total: no
outcome of the fetch is propagated as an error. -/
def fetchRemoteConfig (env : ConfigEnv) : ConfigResult :=
  -- 1. Check memory cache
  match env.memoryCache with
  | some m =>
      if isFresh env.now m then
        { config := m.config
          fetchAttempted := false
          memoryCache := env.memoryCache
          wroteLocal := false }
      else fetchStep2 env
  | none => fetchStep2 env

/-- The failure modes named by the spec for the config fetch: timeout or
abort, non-2xx status, JSON parse failure, or a body missing a thresholds
object or a string mode. -/
def fetchFailureOutcome : FetchOutcome → Prop
  | .ok data => data.hasThresholds = false ∨ data.modeIsString = false
  | _ => True

/-- C5: fetchRemoteConfig is total (never throws) and resolves in order: a
fresh memory entry is returned without fetching; else a fresh localStorage
entry is returned without fetching; else, with an identifier present and any
failing fetch outcome, the stale localStorage entry when present and otherwise
the hard-coded safe defaults. -/
theorem fetchRemoteConfig_fallback_chain (env : ConfigEnv) :
    (env.memoryCache.any (isFresh env.now) = true →
      (fetchRemoteConfig env).fetchAttempted = false ∧
      ∃ m, env.memoryCache = some m ∧ (fetchRemoteConfig env).config = m.config) ∧
    (env.memoryCache.any (isFresh env.now) = false →
      env.localCache.any (isFresh env.now) = true →
      (fetchRemoteConfig env).fetchAttempted = false ∧
      ∃ l, env.localCache = some l ∧ (fetchRemoteConfig env).config = l.config) ∧
    (env.memoryCache.any (isFresh env.now) = false →
      env.localCache.any (isFresh env.now) = false →
      env.widgetPublicId.isSome = true →
      fetchFailureOutcome env.fetchOutcome →
      (fetchRemoteConfig env).config =
        (env.localCache.map (·.config)).getD SAFE_DEFAULTS) := by
  refine ⟨?_, ?_, ?_⟩
  · intro hm
    rcases henv : env.memoryCache with _ | m <;> rw [henv] at hm
    · simp at hm
    · simp only [Option.any_some] at hm
      simp [fetchRemoteConfig, henv, hm]
  · intro hm hl
    rcases henv : env.memoryCache with _ | m <;>
      rcases hlenv : env.localCache with _ | l <;>
        rw [henv] at hm <;> rw [hlenv] at hl <;>
          simp only [Option.any_some, Option.any_none] at hm hl
    · cases hl
    · simp [fetchRemoteConfig, fetchStep2, henv, hlenv, hl]
    · cases hl
    · simp [fetchRemoteConfig, fetchStep2, henv, hlenv, hm, hl]
  · intro hm hl hw hfail
    rcases hwid : env.widgetPublicId with _ | w
    · rw [hwid] at hw; cases hw
    · have hcatch : (fetchCatch env).config =
          (env.localCache.map (·.config)).getD SAFE_DEFAULTS := by
        rcases hlenv : env.localCache with _ | l <;> simp [fetchCatch, hlenv]
      have hstep3 : (fetchStep3 env).config =
          (env.localCache.map (·.config)).getD SAFE_DEFAULTS := by
        rcases hout : env.fetchOutcome with _ | st | _ | data
        · simp [fetchStep3, hwid, hout, hcatch]
        · simp [fetchStep3, hwid, hout, hcatch]
        · simp [fetchStep3, hwid, hout, hcatch]
        · rw [hout] at hfail
          rcases hfail with h | h <;>
            simp [fetchStep3, hwid, hout, hcatch, h]
      rcases henv : env.memoryCache with _ | m <;>
        rcases hlenv : env.localCache with _ | l <;>
          rw [henv] at hm <;> rw [hlenv] at hl <;>
            simp only [Option.any_some, Option.any_none] at hm hl <;>
              simp_all [fetchRemoteConfig, fetchStep2, henv, hlenv]

/-- A concrete failing environment: no caches, identifier present, network
unreachable. -/
def envCfgFail : ConfigEnv :=
  { memoryCache := none
    localCache := none
    widgetPublicId := some "w"
    fetchOutcome := .netError
    now := 0 }

/-- C5 witness: the fallback chain applied at a concrete environment with no
caches and an unreachable backend yields the safe defaults. -/
theorem fetchRemoteConfig_fallback_chain_witness :
    (fetchRemoteConfig envCfgFail).config = SAFE_DEFAULTS :=
  (fetchRemoteConfig_fallback_chain envCfgFail).2.2 rfl rfl rfl trivial

/-- mean from telemetry/behavior.ts: 0 on an empty buffer. -/
noncomputable def mean (a : List ℝ) : ℝ :=
  if a.length = 0 then 0 else a.sum / a.length

/-- std from telemetry/behavior.ts: sample standard deviation, 0 for fewer
than two samples. -/
noncomputable def std (a : List ℝ) : ℝ :=
  if a.length < 2 then 0
  else Real.sqrt ((a.map (fun v => (v - mean a) ^ 2)).sum / ((a.length : ℝ) - 1))

/-- skewness from telemetry/behavior.ts: adjusted Fisher-Pearson coefficient;
0 for fewer than three samples or a zero standard deviation. -/
noncomputable def skewness (a : List ℝ) : ℝ :=
  if a.length < 3 then 0
  else
    let m := mean a
    let s := std a
    if s = 0 then 0
    else
      let n : ℝ := a.length
      n / ((n - 1) * (n - 2)) * (a.map (fun v => ((v - m) / s) ^ 3)).sum

/-- kurtosis from telemetry/behavior.ts: excess kurtosis; 3 (the raw kurtosis
of a normal distribution, per the source comment in lib/fingerprint.ts) for
fewer than four samples, and 0 for a zero standard deviation. -/
noncomputable def kurtosis (a : List ℝ) : ℝ :=
  if a.length < 4 then 3
  else
    let m := mean a
    let s := std a
    if s = 0 then 0
    else (a.map (fun v => ((v - m) / s) ^ 4)).sum / (a.length : ℝ) - 3

/-- C9 counterexample: on the empty buffer (fewer than four samples) kurtosis
returns 3, not 0 as claimed. -/
theorem kurtosis_underflow_returns_three :
    kurtosis ([] : List ℝ) = 3 ∧ kurtosis ([] : List ℝ) ≠ 0 := by
  constructor <;> norm_num [kurtosis]

/-- C9 (amended): for fewer than three samples skewness returns 0, and for
fewer than four samples kurtosis returns 3 (the raw-normal default), not 0. -/
theorem skewness_kurtosis_underflow (a : List ℝ) :
    (a.length < 3 → skewness a = 0) ∧ (a.length < 4 → kurtosis a = 3) := by
  constructor <;> intro h
  · simp [skewness, h]
  · simp [kurtosis, h]

/-- C9 witness: the underflow guards applied to the concrete two-sample buffer
with entries 1 and 2. -/
theorem skewness_kurtosis_underflow_witness :
    skewness [(1 : ℝ), 2] = 0 ∧ kurtosis [(1 : ℝ), 2] = 3 :=
  ⟨(skewness_kurtosis_underflow [(1 : ℝ), 2]).1 (by norm_num),
   (skewness_kurtosis_underflow [(1 : ℝ), 2]).2 (by norm_num)⟩

end HCS
